import Mathlib

/-!
Verification development for the Proxy-Scanner repository (SOCKS5 proxy
collector / scanner / tester).  The Python sources are shallowly embedded:
network effects (the HTTP request issued through a proxy, the SOCKS5
handshake, wall-clock latency) are passed in explicitly as data, and each
Python function that reads them becomes a total Lean function on that data.
-/

namespace ProxyScanner

/-- Python's substring test `needle in hay` on strings: `true` iff `needle`
occurs contiguously inside `hay`. -/
def strContains (hay needle : String) : Bool :=
  hay.toList.tails.any (fun t => needle.toList.isPrefixOf t)

/-- Splitting a character list at every occurrence of `sep`; the semantics
of Python's `str.split(sep)` for a one-character separator (no collapsing,
empty pieces kept, `""` yields `[""]`). -/
def splitOnChar (sep : Char) : List Char → List (List Char)
  | [] => [[]]
  | c :: cs =>
    if c == sep then [] :: splitOnChar sep cs
    else
      match splitOnChar sep cs with
      | [] => [[c]]
      | h :: t => (c :: h) :: t

/-- Python's `s.split(sep)` for a one-character separator. -/
def pySplit (s : String) (sep : Char) : List String :=
  (splitOnChar sep s.toList).map (fun cs => String.mk cs)

/-- Python's `s.strip()`: drop leading and trailing whitespace. -/
def pyStrip (s : String) : String :=
  String.mk (((s.toList.dropWhile Char.isWhitespace).reverse.dropWhile
    Char.isWhitespace).reverse)

/-- Python's `s.startswith(pre)`. -/
def pyStartsWith (s pre : String) : Bool :=
  pre.toList.isPrefixOf s.toList

/-- The natural number denoted by a list of decimal digits. -/
def digitsToNat (ds : List Char) : Nat :=
  ds.foldl (fun n c => 10 * n + (c.toNat - 48)) 0

/-- Python's `int(s)` on a string: optional surrounding whitespace, an
optional sign, then a non-empty run of decimal digits; anything else
raises (embedded as `none`).  (Python's underscore digit grouping is not
modelled; no input in this development uses it.) -/
def pyInt (s : String) : Option Int :=
  let cs := ((s.toList.dropWhile Char.isWhitespace).reverse.dropWhile
    Char.isWhitespace).reverse
  match cs with
  | '-' :: ds =>
    if !ds.isEmpty && ds.all Char.isDigit then some (-(digitsToNat ds : Int)) else none
  | '+' :: ds =>
    if !ds.isEmpty && ds.all Char.isDigit then some (digitsToNat ds : Int) else none
  | ds =>
    if !ds.isEmpty && ds.all Char.isDigit then some (digitsToNat ds : Int) else none

/-- Python truthiness of an optional string (the pattern
`if MY_REAL_IP:` / `if result["exit_ip"]:` in the sources): `None` and the
empty string are falsy. -/
def pyTruthy : Option String → Bool
  | none => false
  | some s => !(s == "")

/-- The expression `origin.split(",")[0].strip()` from
`socks5_tester.test_socks5_proxy` (line 180): the first comma-separated
component, whitespace-trimmed. -/
def firstCommaComponent (s : String) : String :=
  pyStrip ((pySplit s ',').headD "")

/-- The result dictionary built by the probe functions
(`socks5_tester.test_socks5_proxy` lines 138-150,
`socks5_scanner.test_socks5_with_pysocks` lines 246-255,
`socks5_scanner.test_socks5_connection` lines 154-163).  The scanner's
dictionaries carry no `user`/`password` keys; those fields are `none` for
results built by the scanner's functions.  The wall-clock `tested_at`
timestamp is not modelled. -/
structure ProbeResult where
  proxy : String
  ip : String
  port : Int
  user : Option String
  password : Option String
  working : Bool
  latency : Option Nat
  anonymous : Option Bool
  exit_ip : Option String
  error : Option String
deriving DecidableEq, Repr

/-- What the tunneled HTTP request (`requests.get(TEST_URL, proxies=...,
timeout=TEST_TIMEOUT)`) did.  `response st origin` is a completed HTTP
response with status `st`; `origin` is the value `data.get("origin", "")`
that the probe reads from the response JSON (`none` models a body whose
JSON decoding raises, `some ""` a JSON body with no `origin` key).  The
other constructors are the exception classes the probes catch. -/
inductive HttpOutcome where
  | timeout
  | proxyError
  | connectionError
  | otherError (msg : String)
  | response (status : Nat) (origin : Option String)
deriving DecidableEq, Repr

/-- Projection `originOf o`: the JSON origin field when `o` is a completed response,
`none` for every exception outcome. -/
def originOf : HttpOutcome → Option String
  | HttpOutcome.response _ o => o
  | _ => none

/-- Predicate `isHttpSuccess o`: holds exactly when the tunneled request completed
with status 200 (the only branch in which the tester's and the scanner's
pysocks probes return a result). -/
def isHttpSuccess : HttpOutcome → Bool
  | HttpOutcome.response st _ => st == 200
  | _ => false

/-- The parse step of `socks5_tester.test_socks5_proxy` (lines 124-136):
`proxy.split(":")` must have exactly 2 or 4 parts and the port must parse
as an integer (Python `int(port)`, embedded as `pyInt`); any
failure returns `None`.  Note: no port-range or octet-range check is
performed here. -/
def parseProxyTester (proxy : String) : Option (String × Int × Option String × Option String) :=
  match pySplit proxy ':' with
  | [ip, p] => (pyInt p).map (fun port => (ip, port, none, none))
  | [ip, p, u, w] => (pyInt p).map (fun port => (ip, port, some u, some w))
  | _ => none

/-- The parse step of the scanner's probe functions
(`ip, port = proxy.split(":")` then `int(port)`,
`socks5_scanner.py` lines 148-151 and 240-243): exactly two parts. -/
def parseProxyScanner (proxy : String) : Option (String × Int) :=
  match pySplit proxy ':' with
  | [ip, p] => (pyInt p).map (fun port => (ip, port))
  | _ => none

/-- The module constant `CHECK_ANONYMITY = True` of `socks5_scanner.py`
(line 28). -/
def CHECK_ANONYMITY : Bool := true

/-- Embeds `socks5_tester.test_socks5_proxy` (lines 119-201).  Parameters:
`myRealIp` is the global `MY_REAL_IP`, `http` the outcome of the tunneled
request, `elapsedMs` the measured elapsed milliseconds.  The function
returns the result dictionary only in the HTTP-200 branch (line 188); on a
non-200 response or any caught exception it records an error string and
then falls through to `return None` (line 201).  In the 200 branch,
`exit_ip` is the first comma-component of the JSON origin (line 180) and
`anonymous` is set only when both `MY_REAL_IP` and that `exit_ip` are
truthy (lines 183-184), as `MY_REAL_IP not in exit_ip`. -/
def test_socks5_proxy (myRealIp : Option String) (http : HttpOutcome)
    (elapsedMs : Nat) (proxy : String) : Option ProbeResult :=
  match parseProxyTester proxy with
  | none => none
  | some (ip, port, user, password) =>
    match http with
    | HttpOutcome.response st origin =>
      if st = 200 then
        let exitIp : Option String := origin.map firstCommaComponent
        let anon : Option Bool :=
          match myRealIp, exitIp with
          | some r, some e =>
            if !(r == "") && !(e == "") then some (!(strContains e r)) else none
          | _, _ => none
        some { proxy := proxy, ip := ip, port := port, user := user,
               password := password, working := true,
               latency := some elapsedMs, anonymous := anon,
               exit_ip := exitIp, error := none }
      else none
    | _ => none

/-- Embeds `socks5_scanner.test_socks5_with_pysocks` (lines 235-289).  Returns the
result dictionary only in the HTTP-200 branch (line 284); every other path
reaches `return None` (line 289).  Here `exit_ip` is the FULL JSON origin
string (line 277, no comma truncation) and `anonymous = MY_REAL_IP not in
exit_ip` is guarded by `CHECK_ANONYMITY and MY_REAL_IP` only (lines
279-280, no truthiness check on `exit_ip`). -/
def test_socks5_with_pysocks (myRealIp : Option String) (http : HttpOutcome)
    (elapsedMs : Nat) (proxy : String) : Option ProbeResult :=
  match parseProxyScanner proxy with
  | none => none
  | some (ip, port) =>
    match http with
    | HttpOutcome.response st origin =>
      if st = 200 then
        let exitIp : Option String := origin
        let anon : Option Bool :=
          match myRealIp, exitIp with
          | some r, some e =>
            if CHECK_ANONYMITY && !(r == "") then some (!(strContains e r)) else none
          | _, _ => none
        some { proxy := proxy, ip := ip, port := port, user := none,
               password := none, working := true,
               latency := some elapsedMs, anonymous := anon,
               exit_ip := exitIp, error := none }
      else none
    | _ => none

/-- Outcome of the raw-socket SOCKS5 greeting in
`socks5_scanner.test_socks5_connection` (lines 168-192): TCP connect
failure (timeout / refused / other exception), a reply shorter than 2
bytes, a first byte other than 0x05, the 0xFF no-acceptable-method reply,
or a successful greeting. -/
inductive HandshakeResult where
  | connectError
  | shortReply
  | wrongVersion
  | noMethod
  | ok
deriving DecidableEq, Repr

/-- Embeds `socks5_scanner.test_socks5_connection` (lines 143-233).  Every
handshake failure returns `None`.  After a successful greeting: an HTTP
200 marks the result working with latency and optional anonymity
(lines 207-218); a completed non-200 response leaves `working = False`
yet still returns the dictionary (line 226); and an HTTP-level EXCEPTION
(timeout etc.) is caught at lines 220-224, which set `working = True` and
a latency ("SOCKS5 handshake worked but HTTP failed -- still mark as
partially working") before returning the dictionary. -/
def test_socks5_connection (myRealIp : Option String) (hs : HandshakeResult)
    (http : HttpOutcome) (elapsedMs : Nat) (proxy : String) : Option ProbeResult :=
  match parseProxyScanner proxy with
  | none => none
  | some (ip, port) =>
    match hs with
    | HandshakeResult.ok =>
      match http with
      | HttpOutcome.response st origin =>
        if st = 200 then
          let anonExit : Option Bool × Option String :=
            match myRealIp, origin with
            | some r, some e =>
              if CHECK_ANONYMITY && !(r == "") then (some (!(strContains e r)), some e)
              else (none, none)
            | _, _ => (none, none)
          some { proxy := proxy, ip := ip, port := port, user := none,
                 password := none, working := true,
                 latency := some elapsedMs, anonymous := anonExit.1,
                 exit_ip := anonExit.2, error := none }
        else
          some { proxy := proxy, ip := ip, port := port, user := none,
                 password := none, working := false, latency := none,
                 anonymous := none, exit_ip := none, error := none }
      | _ =>
          some { proxy := proxy, ip := ip, port := port, user := none,
                 password := none, working := true,
                 latency := some elapsedMs, anonymous := none,
                 exit_ip := none, error := none }
    | _ => none

/-- The line filter of `socks5_tester.load_proxies` (lines 104-112): each
line is stripped, then kept iff it is non-empty, contains a colon, and
does not start with `#`.  There is no deduplication and no further
validation in this loader. -/
def keepLine (l : String) : Bool :=
  !(l == "") && strContains l ":" && !(pyStartsWith l "#")

def load_proxies (lines : List String) : List String :=
  (lines.map pyStrip).filter keepLine

/-- The tester pipeline from raw lines to parsed endpoints: the lines kept
by `load_proxies`, each then parsed by `test_socks5_proxy`'s parse step. -/
def testerEndpoints (lines : List String) : List (String × Int × Option String × Option String) :=
  (load_proxies lines).filterMap parseProxyTester

/-- The accumulation of raw proxy strings into the Python set
`all_proxies` in `socks5_scanner.collect_from_sources` (lines 97-139): a
set holds each string at most once, so the collection is the input list
with duplicate strings removed (order immaterial for a set). -/
def collectDedup (ps : List String) : List String :=
  ps.dedup

/-- The filtering loop of `test_all_proxies` (tester lines 219-233, scanner
lines 307-316): results arrive in completion order and are appended to the
`working` list iff `result and result["working"]`. -/
def collectWorking (results : List (Option ProbeResult)) : List ProbeResult :=
  results.filterMap (fun res =>
    match res with
    | some r => if r.working then some r else none
    | none => none)

/-- Embeds `socks5_tester.test_all_proxies` (lines 203-239): each scheduled proxy
is probed by `test_socks5_proxy`; `runs` is the completion-ordered stream
of (http outcome, elapsed ms, proxy string) triples. -/
def test_all_proxies (myRealIp : Option String)
    (runs : List (HttpOutcome × Nat × String)) : List ProbeResult :=
  collectWorking (runs.map (fun t => test_socks5_proxy myRealIp t.1 t.2.1 t.2.2))

/-- Embeds `socks5_scanner.test_all_proxies` (lines 291-319): identical loop, but
the probe function submitted to the pool is `test_socks5_with_pysocks`
(line 302); `test_socks5_connection` is never scheduled. -/
def test_all_proxies_scanner (myRealIp : Option String)
    (runs : List (HttpOutcome × Nat × String)) : List ProbeResult :=
  collectWorking (runs.map (fun t => test_socks5_with_pysocks myRealIp t.1 t.2.1 t.2.2))

/-- The sort key `x.get("latency", 9999)` used by both `save_results`
functions (`socks5_tester.py` line 267, `socks5_scanner.py` line 352).
Every result dictionary in these scripts is created with a `latency` key,
so the dictionary-level default 9999 stands for the absent-value reading;
a key present with value `None` would make Python's comparison raise. -/
def latKey (r : ProbeResult) : Nat :=
  r.latency.getD 9999

/-- The sort `working.sort(key=lambda x: x.get("latency", 9999))`
(`socks5_tester.py` line 267, `socks5_scanner.py` line 352): Python's
`list.sort` is a stable sort on that key, embedded as a stable insertion
sort with the non-strict key order. -/
def save_results_sort (l : List ProbeResult) : List ProbeResult :=
  l.insertionSort (fun a b => latKey a ≤ latKey b)

/-- The fixed ordered service list of `socks5_tester.get_my_real_ip`
(lines 55-60). -/
def ip_services : List String :=
  ["https://api.ipify.org?format=json", "https://ipinfo.io/json",
   "https://api.ip.sb/ip", "http://ip-api.com/json"]

/-- Embeds `socks5_tester.get_my_real_ip` (lines 49-82).  Each element of
`attempts` is what one service attempt (in list order) assigns to
`MY_REAL_IP`: `none` when the request raises or returns non-200 (the
`except: continue` / skipped 200-branch paths), `some v` when a value `v`
was extracted.  The loop returns the first truthy extracted value
(line 75-77) and falls through to `return None` (line 82) otherwise. -/
def get_my_real_ip : List (Option String) → Option String
  | [] => none
  | none :: rest => get_my_real_ip rest
  | some v :: rest => if v == "" then get_my_real_ip rest else some v

/-- Strict lexicographic order on character lists (used to state the
spec's `(host, port)` tie-break ordering). -/
def charListLt : List Char → List Char → Bool
  | [], [] => false
  | [], _ :: _ => true
  | _ :: _, [] => false
  | a :: as, b :: bs => if a < b then true else if b < a then false else charListLt as bs

/-- Strict lexicographic order on strings. -/
def strLexLt (s t : String) : Bool :=
  charListLt s.toList t.toList

/-- State of the `ThreadPoolExecutor(max_workers=W)` / `as_completed` run
in both `test_all_proxies` functions (`socks5_tester.py` lines 213-217,
`socks5_scanner.py` lines 299-307): submitted futures not yet started,
probes currently executing on a worker, and completed probes.  Tasks are
identified by index. -/
structure SchedState where
  pending : List Nat
  running : List Nat
  done : List Nat
deriving DecidableEq, Repr

/-- Transition relation of the bounded pool: a pending task may start only
while fewer than `W` probes are running (the `max_workers=W` bound), and a
running probe may finish (its future completes, with result or caught
failure).  No other transitions exist: probes are never cancelled and
never re-queued. -/
inductive SchedStep (W : Nat) : SchedState → SchedState → Prop
  | start (t : Nat) (s : SchedState) (ht : t ∈ s.pending) (hw : s.running.length < W) :
      SchedStep W s ⟨s.pending.erase t, t :: s.running, s.done⟩
  | finish (t : Nat) (s : SchedState) (ht : t ∈ s.running) :
      SchedStep W s ⟨s.pending, s.running.erase t, t :: s.done⟩

/-- The pool's starting state: every probe submitted
(`executor.submit(...) for proxy in proxies`), none yet running. -/
def initState (tasks : List Nat) : SchedState := ⟨tasks, [], []⟩

/-- Reachability under the pool's transition relation. -/
def Reaches (W : Nat) : SchedState → SchedState → Prop :=
  Relation.ReflTransGen (SchedStep W)

/-- A state from which the pool makes no further transition (the
`as_completed` loop has drained). -/
def Terminal (W : Nat) (s : SchedState) : Prop := ∀ s', ¬ SchedStep W s s'

/-- Run invariant: the concurrency bound holds and no task is lost or
duplicated. -/
def SchedInv (W : Nat) (tasks : List Nat) (s : SchedState) : Prop :=
  s.running.length ≤ W ∧ List.Perm (s.pending ++ (s.running ++ s.done)) tasks

instance : IsTotal ProbeResult (fun a b => latKey a ≤ latKey b) :=
  ⟨fun a b => Nat.le_total (latKey a) (latKey b)⟩

instance : IsTrans ProbeResult (fun a b => latKey a ≤ latKey b) :=
  ⟨fun _ _ _ h h' => Nat.le_trans h h'⟩

/-- A working result for host 9.9.9.9 with latency 500 ms (completed
first in its stream). -/
def tieResultA : ProbeResult :=
  { proxy := "9.9.9.9:1080", ip := "9.9.9.9", port := 1080, user := none,
    password := none, working := true, latency := some 500, anonymous := none,
    exit_ip := none, error := none }

/-- A working result for host 1.1.1.1 with the same 500 ms latency
(completed second). -/
def tieResultB : ProbeResult :=
  { proxy := "1.1.1.1:1080", ip := "1.1.1.1", port := 1080, user := none,
    password := none, working := true, latency := some 500, anonymous := none,
    exit_ip := none, error := none }

/-- The result returned by the tester probe for endpoint 5.6.7.8:1080 on a
200 response with origin 1.2.3.4 after 250 ms. -/
def sampleWorkingResult : ProbeResult :=
  { proxy := "5.6.7.8:1080", ip := "5.6.7.8", port := 1080, user := none,
    password := none, working := true, latency := some 250, anonymous := none,
    exit_ip := some "1.2.3.4", error := none }

/-! Helper lemmas about the probe functions. -/

theorem test_socks5_proxy_some {ref : Option String} {http : HttpOutcome} {ms : Nat}
    {p : String} {r : ProbeResult} (h : test_socks5_proxy ref http ms p = some r) :
    r.working = true ∧ r.latency = some ms := by
  cases http with
  | response st origin =>
    rcases hp : parseProxyTester p with _ | ⟨ip, port, u, w⟩ <;>
      simp [test_socks5_proxy, hp] at h
    obtain ⟨h200, hrec⟩ := h
    subst hrec
    exact ⟨rfl, rfl⟩
  | timeout =>
    rcases hp : parseProxyTester p with _ | x <;> simp [test_socks5_proxy, hp] at h
  | proxyError =>
    rcases hp : parseProxyTester p with _ | x <;> simp [test_socks5_proxy, hp] at h
  | connectionError =>
    rcases hp : parseProxyTester p with _ | x <;> simp [test_socks5_proxy, hp] at h
  | otherError m =>
    rcases hp : parseProxyTester p with _ | x <;> simp [test_socks5_proxy, hp] at h

theorem test_socks5_with_pysocks_some {ref : Option String} {http : HttpOutcome} {ms : Nat}
    {p : String} {r : ProbeResult} (h : test_socks5_with_pysocks ref http ms p = some r) :
    r.working = true ∧ r.latency = some ms := by
  cases http with
  | response st origin =>
    rcases hp : parseProxyScanner p with _ | ⟨ip, port⟩ <;>
      simp [test_socks5_with_pysocks, hp] at h
    obtain ⟨h200, hrec⟩ := h
    subst hrec
    exact ⟨rfl, rfl⟩
  | timeout =>
    rcases hp : parseProxyScanner p with _ | x <;> simp [test_socks5_with_pysocks, hp] at h
  | proxyError =>
    rcases hp : parseProxyScanner p with _ | x <;> simp [test_socks5_with_pysocks, hp] at h
  | connectionError =>
    rcases hp : parseProxyScanner p with _ | x <;> simp [test_socks5_with_pysocks, hp] at h
  | otherError m =>
    rcases hp : parseProxyScanner p with _ | x <;> simp [test_socks5_with_pysocks, hp] at h

theorem test_socks5_proxy_none_of_failure {ref : Option String} {http : HttpOutcome}
    {ms : Nat} {p : String} (hfail : isHttpSuccess http = false) :
    test_socks5_proxy ref http ms p = none := by
  unfold test_socks5_proxy
  rcases hp : parseProxyTester p with _ | ⟨ip, port, u, w⟩
  · rfl
  · cases http with
    | response st origin =>
      have hne : st ≠ 200 := by
        intro hst
        rw [hst] at hfail
        simp [isHttpSuccess] at hfail
      simp [hne]
    | timeout => rfl
    | proxyError => rfl
    | connectionError => rfl
    | otherError m => rfl

theorem test_socks5_with_pysocks_none_of_failure {ref : Option String} {http : HttpOutcome}
    {ms : Nat} {p : String} (hfail : isHttpSuccess http = false) :
    test_socks5_with_pysocks ref http ms p = none := by
  unfold test_socks5_with_pysocks
  rcases hp : parseProxyScanner p with _ | ⟨ip, port⟩
  · rfl
  · cases http with
    | response st origin =>
      have hne : st ≠ 200 := by
        intro hst
        rw [hst] at hfail
        simp [isHttpSuccess] at hfail
      simp [hne]
    | timeout => rfl
    | proxyError => rfl
    | connectionError => rfl
    | otherError m => rfl

/-- The tester probe returns no result exactly when the endpoint fails to
parse or the tunneled request did not complete with status 200. -/
theorem tester_none_iff (ref : Option String) (http : HttpOutcome) (ms : Nat) (p : String) :
    test_socks5_proxy ref http ms p = none ↔
      (parseProxyTester p = none ∨ isHttpSuccess http = false) := by
  cases hp : parseProxyTester p with
  | none =>
    simp [test_socks5_proxy, hp]
  | some q =>
    obtain ⟨ip, port, u, w⟩ := q
    cases http with
    | response st origin =>
      by_cases h : st = 200 <;> simp [test_socks5_proxy, hp, isHttpSuccess, h]
    | timeout => simp [test_socks5_proxy, hp, isHttpSuccess]
    | proxyError => simp [test_socks5_proxy, hp, isHttpSuccess]
    | connectionError => simp [test_socks5_proxy, hp, isHttpSuccess]
    | otherError m => simp [test_socks5_proxy, hp, isHttpSuccess]

/-- The scanner pysocks probe returns no result exactly when the endpoint
fails to parse or the tunneled request did not complete with status 200. -/
theorem pysocks_none_iff (ref : Option String) (http : HttpOutcome) (ms : Nat) (p : String) :
    test_socks5_with_pysocks ref http ms p = none ↔
      (parseProxyScanner p = none ∨ isHttpSuccess http = false) := by
  cases hp : parseProxyScanner p with
  | none =>
    simp [test_socks5_with_pysocks, hp]
  | some q =>
    obtain ⟨ip, port⟩ := q
    cases http with
    | response st origin =>
      by_cases h : st = 200 <;> simp [test_socks5_with_pysocks, hp, isHttpSuccess, h]
    | timeout => simp [test_socks5_with_pysocks, hp, isHttpSuccess]
    | proxyError => simp [test_socks5_with_pysocks, hp, isHttpSuccess]
    | connectionError => simp [test_socks5_with_pysocks, hp, isHttpSuccess]
    | otherError m => simp [test_socks5_with_pysocks, hp, isHttpSuccess]



/-- With an unresolved (or empty) reference IP, or a JSON body whose origin
could not be read, neither scheduled probe ever populates `anonymous`. -/
theorem anon_none_aux (ref : Option String) (http : HttpOutcome) (ms : Nat) (p : String)
    (r : ProbeResult) (hun : pyTruthy ref = false ∨ originOf http = none) :
    (test_socks5_proxy ref http ms p = some r → r.anonymous = none) ∧
    (test_socks5_with_pysocks ref http ms p = some r → r.anonymous = none) := by
  constructor
  · intro hr
    cases http with
    | response st origin =>
      rcases hp : parseProxyTester p with _ | ⟨ip, port, u, w⟩ <;>
        simp [test_socks5_proxy, hp] at hr
      obtain ⟨h200, hrec⟩ := hr
      subst hrec
      rcases hun with hun | hun
      · cases ref with
        | none => cases origin <;> rfl
        | some s =>
          have hs : s = "" := by simpa [pyTruthy] using hun
          subst hs
          cases origin with
          | none => rfl
          | some o => simp
      · have ho : origin = none := by simpa [originOf] using hun
        subst ho
        cases ref <;> rfl
    | timeout =>
      rw [test_socks5_proxy_none_of_failure (by rfl)] at hr
      exact Option.noConfusion hr
    | proxyError =>
      rw [test_socks5_proxy_none_of_failure (by rfl)] at hr
      exact Option.noConfusion hr
    | connectionError =>
      rw [test_socks5_proxy_none_of_failure (by rfl)] at hr
      exact Option.noConfusion hr
    | otherError m =>
      rw [test_socks5_proxy_none_of_failure (by rfl)] at hr
      exact Option.noConfusion hr
  · intro hr
    cases http with
    | response st origin =>
      rcases hp : parseProxyScanner p with _ | ⟨ip, port⟩ <;>
        simp [test_socks5_with_pysocks, hp] at hr
      obtain ⟨h200, hrec⟩ := hr
      subst hrec
      rcases hun with hun | hun
      · cases ref with
        | none => cases origin <;> rfl
        | some s =>
          have hs : s = "" := by simpa [pyTruthy] using hun
          subst hs
          cases origin with
          | none => rfl
          | some o => simp [CHECK_ANONYMITY]
      · have ho : origin = none := by simpa [originOf] using hun
        subst ho
        cases ref <;> rfl
    | timeout =>
      rw [test_socks5_with_pysocks_none_of_failure (by rfl)] at hr
      exact Option.noConfusion hr
    | proxyError =>
      rw [test_socks5_with_pysocks_none_of_failure (by rfl)] at hr
      exact Option.noConfusion hr
    | connectionError =>
      rw [test_socks5_with_pysocks_none_of_failure (by rfl)] at hr
      exact Option.noConfusion hr
    | otherError m =>
      rw [test_socks5_with_pysocks_none_of_failure (by rfl)] at hr
      exact Option.noConfusion hr



/-- The raw-socket probe also leaves `anonymous` unset when the reference
IP is unresolved or the origin could not be read. -/
theorem anon_none_aux_connection (ref : Option String) (hs : HandshakeResult)
    (http : HttpOutcome) (ms : Nat) (p : String) (r : ProbeResult)
    (hun : pyTruthy ref = false ∨ originOf http = none)
    (hr : test_socks5_connection ref hs http ms p = some r) : r.anonymous = none := by
  cases hs with
  | ok =>
    cases http with
    | response st origin =>
      rcases hp : parseProxyScanner p with _ | ⟨ip, port⟩ <;>
        simp only [test_socks5_connection, hp] at hr
      · exact Option.noConfusion hr
      · by_cases h200 : st = 200
        · rw [if_pos h200] at hr
          injection hr with hrec
          subst hrec
          rcases hun with hun | hun
          · cases ref with
            | none => cases origin <;> rfl
            | some s =>
              have hs2 : s = "" := by simpa [pyTruthy] using hun
              subst hs2
              cases origin with
              | none => rfl
              | some o => simp [CHECK_ANONYMITY]
          · have ho : origin = none := by simpa [originOf] using hun
            subst ho
            cases ref <;> rfl
        · rw [if_neg h200] at hr
          injection hr with hrec
          subst hrec
          rfl
    | timeout =>
      rcases hp : parseProxyScanner p with _ | ⟨ip, port⟩ <;>
        simp only [test_socks5_connection, hp] at hr
      · exact Option.noConfusion hr
      · injection hr with hrec
        subst hrec
        rfl
    | proxyError =>
      rcases hp : parseProxyScanner p with _ | ⟨ip, port⟩ <;>
        simp only [test_socks5_connection, hp] at hr
      · exact Option.noConfusion hr
      · injection hr with hrec
        subst hrec
        rfl
    | connectionError =>
      rcases hp : parseProxyScanner p with _ | ⟨ip, port⟩ <;>
        simp only [test_socks5_connection, hp] at hr
      · exact Option.noConfusion hr
      · injection hr with hrec
        subst hrec
        rfl
    | otherError m =>
      rcases hp : parseProxyScanner p with _ | ⟨ip, port⟩ <;>
        simp only [test_socks5_connection, hp] at hr
      · exact Option.noConfusion hr
      · injection hr with hrec
        subst hrec
        rfl
  | connectError =>
    rcases hp : parseProxyScanner p with _ | ⟨ip, port⟩ <;>
      simp only [test_socks5_connection, hp] at hr <;> exact Option.noConfusion hr
  | shortReply =>
    rcases hp : parseProxyScanner p with _ | ⟨ip, port⟩ <;>
      simp only [test_socks5_connection, hp] at hr <;> exact Option.noConfusion hr
  | wrongVersion =>
    rcases hp : parseProxyScanner p with _ | ⟨ip, port⟩ <;>
      simp only [test_socks5_connection, hp] at hr <;> exact Option.noConfusion hr
  | noMethod =>
    rcases hp : parseProxyScanner p with _ | ⟨ip, port⟩ <;>
      simp only [test_socks5_connection, hp] at hr <;> exact Option.noConfusion hr

/-- The resolver returns the value extracted by the first service attempt
that produced a truthy value, in list order. -/
theorem get_my_real_ip_first (pre post : List (Option String)) (v : String)
    (hall : ∀ b ∈ pre, pyTruthy b = false) (hv : pyTruthy (some v) = true) :
    get_my_real_ip (pre ++ some v :: post) = some v := by
  induction pre with
  | nil =>
    have hne : (v == "") = false := by simpa [pyTruthy] using hv
    simp [get_my_real_ip, hne]
  | cons b bs ih =>
    have htail : ∀ x ∈ bs, pyTruthy x = false :=
      fun x hx => hall x (List.mem_cons_of_mem _ hx)
    cases b with
    | none => simpa [get_my_real_ip] using ih htail
    | some s =>
      have hs : s = "" := by
        have := hall (some s) (List.mem_cons_self _ _)
        simpa [pyTruthy] using this
      subst hs
      simpa [get_my_real_ip] using ih htail

/-- When every service attempt fails (or extracts a falsy value), the
resolver returns the unresolved sentinel `none`. -/
theorem get_my_real_ip_all_fail (attempts : List (Option String))
    (hall : ∀ b ∈ attempts, pyTruthy b = false) :
    get_my_real_ip attempts = none := by
  induction attempts with
  | nil => rfl
  | cons b bs ih =>
    have htail : ∀ x ∈ bs, pyTruthy x = false :=
      fun x hx => hall x (List.mem_cons_of_mem _ hx)
    cases b with
    | none => simpa [get_my_real_ip] using ih htail
    | some s =>
      have hs : s = "" := by
        have := hall (some s) (List.mem_cons_self _ _)
        simpa [pyTruthy] using this
      subst hs
      simpa [get_my_real_ip] using ih htail

example : ∀ ms : Nat,
    (test_socks5_proxy none (HttpOutcome.response 200 (some "1.2.3.4")) ms "5.5.5.5:1080").map
      (fun r => (r.working, r.anonymous)) = some (true, none) := by
  intro ms
  rfl



/-- Every element of the `working` list was a returned result with
`working = True`. -/
theorem collectWorking_mem {results : List (Option ProbeResult)} {r : ProbeResult}
    (hmem : r ∈ collectWorking results) :
    some r ∈ results ∧ r.working = true := by
  simp only [collectWorking, List.mem_filterMap] at hmem
  obtain ⟨a, ha, hfa⟩ := hmem
  rcases a with _ | q
  · exact Option.noConfusion hfa
  · change (if q.working = true then some q else none) = some r at hfa
    rcases hw : q.working with _ | _ <;> simp [hw] at hfa
    subst hfa
    exact ⟨ha, hw⟩

/-- Every result collected by the tester run is working and carries a
latency, which is exactly its sort key. -/
theorem test_all_proxies_working (ref : Option String)
    (runs : List (HttpOutcome × Nat × String)) (r : ProbeResult)
    (hmem : r ∈ test_all_proxies ref runs) :
    r.working = true ∧ ∃ ms, r.latency = some ms ∧ latKey r = ms := by
  obtain ⟨hin, hw⟩ := collectWorking_mem hmem
  rw [List.mem_map] at hin
  obtain ⟨t, ht, heq⟩ := hin
  obtain ⟨hwq, hlat⟩ := test_socks5_proxy_some heq
  exact ⟨hw, t.2.1, hlat, by simp [latKey, hlat]⟩

/-- Every result collected by the scanner run is working and carries a
latency, which is exactly its sort key. -/
theorem test_all_proxies_scanner_working (ref : Option String)
    (runs : List (HttpOutcome × Nat × String)) (r : ProbeResult)
    (hmem : r ∈ test_all_proxies_scanner ref runs) :
    r.working = true ∧ ∃ ms, r.latency = some ms ∧ latKey r = ms := by
  obtain ⟨hin, hw⟩ := collectWorking_mem hmem
  rw [List.mem_map] at hin
  obtain ⟨t, ht, heq⟩ := hin
  obtain ⟨hwq, hlat⟩ := test_socks5_with_pysocks_some heq
  exact ⟨hw, t.2.1, hlat, by simp [latKey, hlat]⟩



/-- A line that strips to empty, starts with the comment marker, or has no
colon is dropped by the loader. -/
theorem load_proxies_drop (line : String)
    (h : (pyStrip line == "" || pyStartsWith (pyStrip line) "#" ||
      !(strContains (pyStrip line) ":")) = true) :
    load_proxies [line] = [] := by
  simp only [Bool.or_eq_true] at h
  have hk : keepLine (pyStrip line) = false := by
    rcases h with (h | h) | h
    · simp [keepLine, h]
    · simp [keepLine, h]
    · have hc : strContains (pyStrip line) ":" = false := by simpa using h
      simp [keepLine, hc]
  simp [load_proxies, hk]

/-- The loader is line-by-line: dropping one line never affects the rest
of the batch. -/
theorem load_proxies_append (l1 l2 : List String) :
    load_proxies (l1 ++ l2) = load_proxies l1 ++ load_proxies l2 := by
  simp [load_proxies, List.filter_append]

/-- A proxy string whose colon-split has a token count other than 2 or 4
fails to parse. -/
theorem parseProxyTester_wrong_arity (s : String)
    (h2 : (pySplit s ':').length ≠ 2) (h4 : (pySplit s ':').length ≠ 4) :
    parseProxyTester s = none := by
  unfold parseProxyTester
  rcases hs : pySplit s ':' with _ | ⟨a, _ | ⟨b, _ | ⟨c, _ | ⟨d, _ | ⟨e, rest⟩⟩⟩⟩⟩
  · rfl
  · rfl
  · exact absurd (by rw [hs]; rfl) h2
  · rfl
  · exact absurd (by rw [hs]; rfl) h4
  · rfl

/-- The anonymity value computed in the 200 branch: the tester checks the
reference IP against the first comma-component only, the scanner pysocks
probe against the full origin string. -/
theorem anonymity_general (ref o : String) (ms : Nat)
    (h1 : (ref == "") = false) (h2 : (firstCommaComponent o == "") = false) :
    (test_socks5_proxy (some ref) (HttpOutcome.response 200 (some o)) ms "5.5.5.5:1080").map
        (fun r => r.anonymous) = some (some (!(strContains (firstCommaComponent o) ref))) ∧
    (test_socks5_with_pysocks (some ref) (HttpOutcome.response 200 (some o)) ms
        "5.5.5.5:1080").map
        (fun r => r.anonymous) = some (some (!(strContains o ref))) := by
  constructor
  · have hp : parseProxyTester "5.5.5.5:1080" = some ("5.5.5.5", 1080, none, none) := by decide
    simp [test_socks5_proxy, hp, h1, h2]
  · have hp : parseProxyScanner "5.5.5.5:1080" = some ("5.5.5.5", 1080) := by decide
    simp [test_socks5_with_pysocks, hp, CHECK_ANONYMITY, h1]



/-- Each pool transition preserves the concurrency bound and the task
multiset. -/
theorem schedStep_inv {W : Nat} {tasks : List Nat} {s s' : SchedState}
    (h : SchedStep W s s') (hinv : SchedInv W tasks s) : SchedInv W tasks s' := by
  rcases hinv with ⟨hlen, hperm⟩
  cases h with
  | start t s ht hw =>
    refine ⟨by simpa using hw, ?_⟩
    have h1 : List.Perm (s.pending.erase t ++ (t :: (s.running ++ s.done)))
        (t :: (s.pending.erase t ++ (s.running ++ s.done))) := List.perm_middle
    have h2 : List.Perm s.pending (t :: s.pending.erase t) := List.perm_cons_erase ht
    have h3 : List.Perm ((t :: s.pending.erase t) ++ (s.running ++ s.done))
        (s.pending ++ (s.running ++ s.done)) := (h2.append_right _).symm
    exact h1.trans (h3.trans hperm)
  | finish t s ht =>
    refine ⟨Nat.le_trans ((List.erase_sublist t s.running).length_le) hlen, ?_⟩
    have h1 : List.Perm (s.running.erase t ++ (t :: s.done))
        (t :: (s.running.erase t ++ s.done)) := List.perm_middle
    have h2 : List.Perm s.running (t :: s.running.erase t) := List.perm_cons_erase ht
    have h3 : List.Perm (t :: (s.running.erase t ++ s.done)) (s.running ++ s.done) :=
      (h2.append_right s.done).symm
    exact ((h1.trans h3).append_left s.pending).trans hperm

/-- The run invariant holds in every state reachable from the initial
submission state. -/
theorem reaches_inv {W : Nat} {tasks : List Nat} {s : SchedState}
    (h : Reaches W (initState tasks) s) : SchedInv W tasks s := by
  induction h with
  | refl => exact ⟨by simp [initState], by simp [initState]⟩
  | tail _ hstep ih => exact schedStep_inv hstep ih

/-- A terminal state of a pool with at least one worker has started and
finished every submitted task. -/
theorem terminal_all_done {W : Nat} {tasks : List Nat} {s : SchedState}
    (hW : 0 < W) (hterm : Terminal W s) (hinv : SchedInv W tasks s) :
    s.pending = [] ∧ s.running = [] ∧ List.Perm s.done tasks := by
  have hrun : s.running = [] := by
    cases hr : s.running with
    | nil => rfl
    | cons t ts =>
      exact absurd (SchedStep.finish t s (by rw [hr]; exact List.mem_cons_self t ts))
        (hterm _)
  have hpend : s.pending = [] := by
    cases hp : s.pending with
    | nil => rfl
    | cons t ts =>
      refine absurd (SchedStep.start t s (by rw [hp]; exact List.mem_cons_self t ts) ?_)
        (hterm _)
      rw [hrun]; simpa using hW
  refine ⟨hpend, hrun, ?_⟩
  have hp2 := hinv.2
  rw [hpend, hrun] at hp2
  simpa using hp2



/-- C1 counterexample: with reference IP 9.9.9.9 and a comma-joined origin
"1.1.1.1, 9.9.9.9", the tester probe stores only the first component
"1.1.1.1" as `exit_ip` and reports `anonymous = true`, whereas the claimed
full-string substring check yields `false`. -/
theorem tester_truncates_exit_ip_list :
    (test_socks5_proxy (some "9.9.9.9") (HttpOutcome.response 200 (some "1.1.1.1, 9.9.9.9"))
        100 "5.5.5.5:1080").map (fun r => r.anonymous) = some (some true) ∧
    (!(strContains "1.1.1.1, 9.9.9.9" "9.9.9.9")) = false ∧
    (test_socks5_proxy (some "9.9.9.9") (HttpOutcome.response 200 (some "1.1.1.1, 9.9.9.9"))
        100 "5.5.5.5:1080").map (fun r => r.exit_ip) = some (some "1.1.1.1") := by
  decide

/-- C1 (amended): the scanner pysocks probe sets `anonymous` to (reference
IP not a substring of the full, possibly comma-joined origin) - false for
(9.9.9.9, "1.1.1.1, 9.9.9.9"), true for "1.1.1.1"; but the tester probe
truncates the origin to its first comma-component before the substring
check, so it reports true on the comma-joined example. -/
theorem anonymity_substring_semantics (ref o : String) (ms : Nat)
    (h1 : (ref == "") = false) (h2 : (firstCommaComponent o == "") = false) :
    ((test_socks5_proxy (some ref) (HttpOutcome.response 200 (some o)) ms "5.5.5.5:1080").map
        (fun r => r.anonymous) = some (some (!(strContains (firstCommaComponent o) ref)))) ∧
    ((test_socks5_with_pysocks (some ref) (HttpOutcome.response 200 (some o)) ms
        "5.5.5.5:1080").map
        (fun r => r.anonymous) = some (some (!(strContains o ref)))) ∧
    ((test_socks5_with_pysocks (some "9.9.9.9")
        (HttpOutcome.response 200 (some "1.1.1.1, 9.9.9.9")) 100 "5.5.5.5:1080").map
        (fun r => r.anonymous) = some (some false)) ∧
    ((test_socks5_with_pysocks (some "9.9.9.9") (HttpOutcome.response 200 (some "1.1.1.1"))
        100 "5.5.5.5:1080").map (fun r => r.anonymous) = some (some true)) ∧
    ((test_socks5_proxy (some "9.9.9.9") (HttpOutcome.response 200 (some "1.1.1.1")) 100
        "5.5.5.5:1080").map (fun r => r.anonymous) = some (some true)) :=
  ⟨(anonymity_general ref o ms h1 h2).1, (anonymity_general ref o ms h1 h2).2,
    by decide, by decide, by decide⟩

/-- C1 witness: the amended claim instantiated at reference 9.9.9.9 and
origin "1.1.1.1, 9.9.9.9". -/
theorem anonymity_substring_semantics_witness :
    (("9.9.9.9" == "") = false ∧ (firstCommaComponent "1.1.1.1, 9.9.9.9" == "") = false) ∧
    (test_socks5_with_pysocks (some "9.9.9.9")
        (HttpOutcome.response 200 (some "1.1.1.1, 9.9.9.9")) 100 "5.5.5.5:1080").map
        (fun r => r.anonymous) = some (some (!(strContains "1.1.1.1, 9.9.9.9" "9.9.9.9"))) := by
  refine ⟨⟨by decide, by decide⟩, ?_⟩
  exact (anonymity_substring_semantics "9.9.9.9" "1.1.1.1, 9.9.9.9" 100
    (by decide) (by decide)).2.1

/-- C2 counterexample: in the scanner's raw-socket path, a SOCKS5 greeting
that succeeds followed by a tunneled HTTP request that raises is returned
with `working = true` (the "partially working" branch), a success. -/
theorem connection_probe_marks_http_failure_working :
    (test_socks5_connection (some "9.9.9.9") HandshakeResult.ok HttpOutcome.timeout 1234
      "1.2.3.4:1080").map (fun r => r.working) = some true ∧
    (test_socks5_connection (some "9.9.9.9") HandshakeResult.ok HttpOutcome.timeout 1234
      "1.2.3.4:1080").map (fun r => r.latency) = some (some 1234) := by
  decide

/-- C2 (amended): for the two probe functions that the entry points
actually schedule, any tunneled HTTP failure (timeout, error, or non-200
response) makes the probe yield no result - never a success. -/
theorem scheduled_probes_require_http_success (ref : Option String) (http : HttpOutcome)
    (ms : Nat) (p : String) (hfail : isHttpSuccess http = false) :
    test_socks5_proxy ref http ms p = none ∧ test_socks5_with_pysocks ref http ms p = none :=
  ⟨test_socks5_proxy_none_of_failure hfail, test_socks5_with_pysocks_none_of_failure hfail⟩

/-- C2 witness: a timed-out tunneled request at endpoint 1.2.3.4:1080
yields no result from either scheduled probe. -/
theorem scheduled_probes_require_http_success_witness :
    isHttpSuccess HttpOutcome.timeout = false ∧
    test_socks5_proxy (some "9.9.9.9") HttpOutcome.timeout 1234 "1.2.3.4:1080" = none ∧
    test_socks5_with_pysocks (some "9.9.9.9") HttpOutcome.timeout 1234 "1.2.3.4:1080" = none := by
  refine ⟨by decide, ?_, ?_⟩
  · exact (scheduled_probes_require_http_success (some "9.9.9.9") HttpOutcome.timeout 1234
      "1.2.3.4:1080" (by decide)).1
  · exact (scheduled_probes_require_http_success (some "9.9.9.9") HttpOutcome.timeout 1234
      "1.2.3.4:1080" (by decide)).2

/-- C3 counterexample: the tester pipeline yields three endpoints, not two,
on the claimed example: "999.1.1.1:80" (octet 999) parses fine, and so
would an out-of-range port. -/
theorem tester_accepts_out_of_range_octet :
    (testerEndpoints ["1.2.3.4:8080", "bad", "999.1.1.1:80", "5.6.7.8:1080"]).length = 3 ∧
    parseProxyTester "999.1.1.1:80" = some ("999.1.1.1", 80, none, none) ∧
    parseProxyTester "1.2.3.4:99999" = some ("1.2.3.4", 99999, none, none) := by
  decide

/-- C3 (amended): blank, comment and colon-free lines are dropped by the
loader; token counts other than 2 or 4 are rejected at parse; the batch
continues around dropped lines; but no port-range or octet-range check is
made, so the example yields exactly three endpoints. -/
theorem tester_line_and_parse_validation :
    (∀ line : String,
       (pyStrip line == "" || pyStartsWith (pyStrip line) "#" ||
         !(strContains (pyStrip line) ":")) = true →
       load_proxies [line] = []) ∧
    (∀ l1 l2 : List String, load_proxies (l1 ++ l2) = load_proxies l1 ++ load_proxies l2) ∧
    (∀ s : String, (pySplit s ':').length ≠ 2 → (pySplit s ':').length ≠ 4 →
       parseProxyTester s = none) ∧
    testerEndpoints ["1.2.3.4:8080", "bad", "999.1.1.1:80", "5.6.7.8:1080"] =
      [("1.2.3.4", 8080, none, none), ("999.1.1.1", 80, none, none),
       ("5.6.7.8", 1080, none, none)] :=
  ⟨load_proxies_drop, load_proxies_append, parseProxyTester_wrong_arity, by decide⟩

/-- C3 witness: a comment line is dropped and a 3-token line fails to
parse. -/
theorem tester_line_and_parse_validation_witness :
    ((pyStrip "  # comment" == "" || pyStartsWith (pyStrip "  # comment") "#" ||
       !(strContains (pyStrip "  # comment") ":")) = true ∧
     (pySplit "a:b:c" ':').length ≠ 2 ∧ (pySplit "a:b:c" ':').length ≠ 4) ∧
    load_proxies ["  # comment"] = [] ∧ parseProxyTester "a:b:c" = none := by
  refine ⟨⟨by decide, by decide, by decide⟩, ?_, ?_⟩
  · exact tester_line_and_parse_validation.1 "  # comment" (by decide)
  · exact tester_line_and_parse_validation.2.2.1 "a:b:c" (by decide) (by decide)

/-- C4 counterexample: a timed-out tester probe and an errored scanner
probe return the absence sentinel `none`, not a result carrying a
failure reason. -/
theorem probe_failure_yields_absence :
    test_socks5_proxy (some "9.9.9.9") HttpOutcome.timeout 0 "1.2.3.4:1080" = none ∧
    test_socks5_with_pysocks (some "9.9.9.9") HttpOutcome.connectionError 0
      "1.2.3.4:1080" = none := by
  decide

/-- C4 (amended): each probe invocation terminates and returns at most one
result - none exactly on the failure modes (parse failure or any tunneled
HTTP failure), a single result exactly on a 200 tunneled response; failures
become absence from the success stream, never exceptions. -/
theorem probe_outcome_characterization (ref : Option String) (http : HttpOutcome)
    (ms : Nat) (p : String) :
    (test_socks5_proxy ref http ms p = none ↔
      (parseProxyTester p = none ∨ isHttpSuccess http = false)) ∧
    (test_socks5_with_pysocks ref http ms p = none ↔
      (parseProxyScanner p = none ∨ isHttpSuccess http = false)) :=
  ⟨tester_none_iff ref http ms p, pysocks_none_iff ref http ms p⟩

/-- C5 counterexample: two working results with equal 500 ms latency stay
in completion order (9.9.9.9 before 1.1.1.1) after the sort, although the
claimed (host, port) lexicographic tie-break would put 1.1.1.1 first. -/
theorem sort_ties_not_lexicographic :
    save_results_sort [tieResultA, tieResultB] = [tieResultA, tieResultB] ∧
    latKey tieResultA = latKey tieResultB ∧
    strLexLt tieResultB.ip tieResultA.ip = true ∧
    tieResultB.port = tieResultA.port := by
  decide

/-- C5 (amended): the saved result list is sorted ascending by the key
latency-or-9999 and is a permutation of the working list; equal-latency
results keep their completion order (stable sort), with no (host, port)
tie-break. -/
theorem save_results_sort_spec :
    (∀ l : List ProbeResult,
       (save_results_sort l).Sorted (fun a b => latKey a ≤ latKey b) ∧
       List.Perm (save_results_sort l) l) ∧
    save_results_sort [tieResultB, tieResultA] = [tieResultB, tieResultA] :=
  ⟨fun l => ⟨List.sorted_insertionSort _ l, List.perm_insertionSort _ l⟩, by decide⟩

/-- C6 counterexample: the tester loader keeps all three lines of the
claimed example, so the duplicate endpoint is scheduled and probed twice. -/
theorem tester_loader_keeps_duplicates :
    (load_proxies ["1.1.1.1:1080", "1.1.1.1:1080", "1.1.1.1:1080:u:p"]).length = 3 ∧
    (testerEndpoints ["1.1.1.1:1080", "1.1.1.1:1080", "1.1.1.1:1080:u:p"]).length = 3 := by
  decide

/-- C6 (amended): the scanner's collection stage deduplicates raw proxy
strings through a set - each distinct string kept once, the example
yielding two entries - while the tester's loader performs no
deduplication and schedules the example's three lines as-is. -/
theorem dedup_scanner_collection_only :
    (∀ ps : List String,
       (collectDedup ps).Nodup ∧ ∀ p : String, p ∈ collectDedup ps ↔ p ∈ ps) ∧
    collectDedup ["1.1.1.1:1080", "1.1.1.1:1080", "1.1.1.1:1080:u:p"] =
      ["1.1.1.1:1080", "1.1.1.1:1080:u:p"] ∧
    load_proxies ["1.1.1.1:1080", "1.1.1.1:1080", "1.1.1.1:1080:u:p"] =
      ["1.1.1.1:1080", "1.1.1.1:1080", "1.1.1.1:1080:u:p"] :=
  ⟨fun ps => ⟨List.nodup_dedup ps, fun p => List.mem_dedup⟩, by decide, by decide⟩



/-- C7: when the reference IP is unresolved (or empty) or the probe's
origin could not be obtained, every probe function leaves `anonymous`
absent (`none`), never `false`. -/
theorem anonymous_absent_when_unresolved (ref : Option String) (http : HttpOutcome)
    (ms : Nat) (p : String) (r : ProbeResult)
    (hun : pyTruthy ref = false ∨ originOf http = none) :
    (test_socks5_proxy ref http ms p = some r → r.anonymous = none) ∧
    (test_socks5_with_pysocks ref http ms p = some r → r.anonymous = none) ∧
    (∀ hs : HandshakeResult,
       test_socks5_connection ref hs http ms p = some r → r.anonymous = none) := by
  obtain ⟨h1, h2⟩ := anon_none_aux ref http ms p r hun
  exact ⟨h1, h2, fun hs hr => anon_none_aux_connection ref hs http ms p r hun hr⟩

/-- C7 witness: with no reference IP, a successful probe still returns a
result whose `anonymous` field is `none`. -/
theorem anonymous_absent_when_unresolved_witness :
    (pyTruthy none = false ∨ originOf (HttpOutcome.response 200 (some "1.2.3.4")) = none) ∧
    test_socks5_proxy none (HttpOutcome.response 200 (some "1.2.3.4")) 7 "5.5.5.5:1080" =
      some { proxy := "5.5.5.5:1080", ip := "5.5.5.5", port := 1080, user := none,
             password := none, working := true, latency := some 7, anonymous := none,
             exit_ip := some "1.2.3.4", error := none } ∧
    ({ proxy := "5.5.5.5:1080", ip := "5.5.5.5", port := 1080, user := none,
       password := none, working := true, latency := some 7, anonymous := none,
       exit_ip := some "1.2.3.4", error := none } : ProbeResult).anonymous = none := by
  refine ⟨Or.inl rfl, by decide, ?_⟩
  exact (anonymous_absent_when_unresolved none (HttpOutcome.response 200 (some "1.2.3.4")) 7
    "5.5.5.5:1080" _ (Or.inl rfl)).1 (by decide)

/-- C8: in every state reachable from submitting the task set to a pool
with worker budget W, at most W probes run concurrently, and when the run
reaches a terminal state every submitted probe has completed. -/
theorem pool_bounded_and_complete (W : Nat) (tasks : List Nat) (s : SchedState)
    (hW : 0 < W) (hreach : Reaches W (initState tasks) s) :
    s.running.length ≤ W ∧ (Terminal W s → List.Perm s.done tasks) := by
  have hinv := reaches_inv hreach
  exact ⟨hinv.1, fun hterm => (terminal_all_done hW hterm hinv).2.2⟩

/-- C8 witness: a concrete one-task run with W = 1 reaching its terminal
state. -/
theorem pool_bounded_and_complete_witness :
    ((0 : Nat) < 1 ∧ Reaches 1 (initState [0]) ⟨[], [], [0]⟩) ∧
    (SchedState.mk [] [] [0]).running.length ≤ 1 ∧
    (Terminal 1 ⟨[], [], [0]⟩ → List.Perm (SchedState.mk [] [] [0]).done [0]) := by
  have hreach : Reaches 1 (initState [0]) ⟨[], [], [0]⟩ := by
    have s1 : SchedStep 1 (initState [0]) ⟨[], [0], []⟩ := by
      have h := @SchedStep.start 1 0 (initState [0]) (by simp [initState]) (by simp [initState])
      simpa [initState] using h
    have s2 : SchedStep 1 (⟨[], [0], []⟩ : SchedState) ⟨[], [], [0]⟩ := by
      have h := @SchedStep.finish 1 0 (⟨[], [0], []⟩ : SchedState) (by simp)
      simpa using h
    exact Relation.ReflTransGen.head s1 (Relation.ReflTransGen.single s2)
  exact ⟨⟨by decide, hreach⟩,
    pool_bounded_and_complete 1 [0] ⟨[], [], [0]⟩ (by decide) hreach⟩

/-- C9: the resolver tries its four fixed services in order and returns
the first truthy extracted value, or the unresolved sentinel when all
fail; an unresolved reference IP is non-fatal - the probe still runs and
merely leaves `anonymous` unset. -/
theorem reference_ip_first_success_nonfatal :
    (∀ (pre post : List (Option String)) (v : String),
       (∀ b ∈ pre, pyTruthy b = false) → pyTruthy (some v) = true →
       get_my_real_ip (pre ++ some v :: post) = some v) ∧
    (∀ attempts : List (Option String),
       (∀ b ∈ attempts, pyTruthy b = false) → get_my_real_ip attempts = none) ∧
    (∀ ms : Nat,
       (test_socks5_proxy none (HttpOutcome.response 200 (some "1.2.3.4")) ms
         "5.6.7.8:1080").map (fun r => (r.working, r.anonymous)) = some (true, none)) ∧
    ip_services.length = 4 :=
  ⟨get_my_real_ip_first, get_my_real_ip_all_fail, fun _ => rfl, rfl⟩

/-- C9 witness: two failing attempts followed by a success yield the
success value; two failing attempts alone yield the sentinel. -/
theorem reference_ip_first_success_nonfatal_witness :
    ((∀ b ∈ ([none, some ""] : List (Option String)), pyTruthy b = false) ∧
     pyTruthy (some "203.0.113.7") = true) ∧
    get_my_real_ip ([none, some ""] ++ some "203.0.113.7" :: [some "198.51.100.2"]) =
      some "203.0.113.7" ∧
    get_my_real_ip [none, some ""] = none := by
  have hall : ∀ b ∈ ([none, some ""] : List (Option String)), pyTruthy b = false := by
    intro b hb
    rcases List.mem_cons.mp hb with rfl | hb
    · rfl
    · rcases List.mem_cons.mp hb with rfl | hb
      · rfl
      · exact absurd hb (List.not_mem_nil b)
  refine ⟨⟨hall, by decide⟩, ?_, ?_⟩
  · exact reference_ip_first_success_nonfatal.1 [none, some ""] [some "198.51.100.2"]
      "203.0.113.7" hall (by decide)
  · exact reference_ip_first_success_nonfatal.2.1 [none, some ""] hall

/-- C10: every element of the working list of either entry point - and
hence every entry of the sorted output - has `working = true` and an
integer latency, so the defensive 9999 sort default is never exercised by
an aggregated result. -/
theorem aggregated_results_working_with_latency (ref : Option String)
    (runs : List (HttpOutcome × Nat × String)) (r : ProbeResult) :
    (r ∈ test_all_proxies ref runs →
       r.working = true ∧ ∃ ms, r.latency = some ms ∧ latKey r = ms) ∧
    (r ∈ test_all_proxies_scanner ref runs →
       r.working = true ∧ ∃ ms, r.latency = some ms ∧ latKey r = ms) ∧
    (r ∈ save_results_sort (test_all_proxies ref runs) →
       r.working = true ∧ ∃ ms, r.latency = some ms ∧ latKey r = ms) := by
  refine ⟨fun h => test_all_proxies_working ref runs r h,
          fun h => test_all_proxies_scanner_working ref runs r h, fun h => ?_⟩
  have hmem : r ∈ test_all_proxies ref runs :=
    (List.perm_insertionSort _ _).mem_iff.mp h
  exact test_all_proxies_working ref runs r hmem

/-- C10 witness: a one-probe run whose single working result carries
latency 250. -/
theorem aggregated_results_working_with_latency_witness :
    sampleWorkingResult ∈ test_all_proxies none
      [(HttpOutcome.response 200 (some "1.2.3.4"), 250, "5.6.7.8:1080")] ∧
    sampleWorkingResult.working = true ∧
    ∃ ms, sampleWorkingResult.latency = some ms ∧ latKey sampleWorkingResult = ms := by
  refine ⟨by decide, ?_⟩
  exact (aggregated_results_working_with_latency none
    [(HttpOutcome.response 200 (some "1.2.3.4"), 250, "5.6.7.8:1080")]
    sampleWorkingResult).1 (by decide)


end ProxyScanner
